import Mathlib

/-
Verification of the reusable UI component kit
(src/unnamed/part_001 of the repository).

The kit is a set of React function components.  Each component is embedded
as a pure Lean function from a props record (plus, where the source has
one, a local-state snapshot or an explicitly passed random value) to a
render tree.  JSX markup becomes the inductive `Node` type below; event
handler props (callbacks such as `onClick`, `onChange`, `onClose`) are
tracked by numeric identity, and the JSX attribute
`onChange={(e) => onChange(e.target.value)}` is encoded by the dedicated
`Attr.change` constructor whose dispatch semantics applies the callback to
the event's new value.
-/

namespace UIKit

/-- An attribute of a rendered element: a string-valued attribute, a
boolean attribute, a click handler (`Option` because JSX accepts an
omitted handler), or a change handler standing for the lambda
`(e) => cb e.target.value`. -/
inductive Attr where
  | str (name val : String)
  | bool (name : String) (val : Bool)
  | click (cb : Option Nat)
  | change (cb : Nat)
  deriving DecidableEq, Repr

/-- A render-tree node: either a text node or an element with a tag,
attributes and children. -/
inductive Node where
  | text (s : String)
  | elem (tag : String) (attrs : List Attr) (children : List Node)
  deriving Repr

/-- Look up a string-valued attribute by name. -/
def attrsStr (n : String) : List Attr → Option String
  | [] => none
  | Attr.str m v :: rest => if m = n then some v else attrsStr n rest
  | _ :: rest => attrsStr n rest

/-- Look up a boolean attribute by name; an absent attribute reads false. -/
def attrsBool (n : String) : List Attr → Bool
  | [] => false
  | Attr.bool m v :: rest => if m = n then v else attrsBool n rest
  | _ :: rest => attrsBool n rest

/-- The click handler installed on an attribute list, if any. -/
def attrsClick : List Attr → Option Nat
  | [] => none
  | Attr.click cb :: _ => cb
  | _ :: rest => attrsClick rest

/-- The change handler installed on an attribute list, if any. -/
def attrsChange : List Attr → Option Nat
  | [] => none
  | Attr.change cb :: _ => some cb
  | _ :: rest => attrsChange rest

/-- The children list of a node (a text node has none). -/
def nodeChildren : Node → List Node
  | Node.text _ => []
  | Node.elem _ _ c => c

/-- A node's boolean attribute by name. -/
def nodeBool (n : String) : Node → Bool
  | Node.text _ => false
  | Node.elem _ attrs _ => attrsBool n attrs

/-- A node's string attribute by name. -/
def nodeStr (n : String) : Node → Option String
  | Node.text _ => none
  | Node.elem _ attrs _ => attrsStr n attrs

/-- JavaScript truthiness of an optional string prop: `undefined` and the
empty string are falsy.  The source tests props such as `title`, `label`,
`error` and `id` with `&&` / `||`, which uses exactly this notion. -/
def truthy : Option String → Bool
  | none => false
  | some s => !(s = "")

/-- Does `nd` occur as a contiguous run inside the character list? -/
def charsContain (nd : List Char) : List Char → Bool
  | [] => nd.isEmpty
  | c :: rest => nd.isPrefixOf (c :: rest) || charsContain nd rest

/-- Substring test, used to state properties of rendered class strings. -/
def strContains (hay needle : String) : Bool :=
  charsContain needle.data hay.data

/-- Modelled from the spec: the host control's native disabled semantics
(« Clicking when `effectiveDisabled` is true must not invoke `onClick`;
this is delegated to the underlying control's native disabled
semantics »).  Dispatching a click on a rendered element invokes its click
handler unless the element's `disabled` attribute is true.  The event
dispatch engine itself is not part of the repository. -/
def dispatchClick (n : Node) : Option Nat :=
  match n with
  | Node.text _ => none
  | Node.elem _ attrs _ =>
      if attrsBool "disabled" attrs then none else attrsClick attrs

/-- Modelled from the spec: firing a change event carrying new value `v`
on an element whose change handler encodes `(e) => cb e.target.value`
invokes callback `cb` with `v`. -/
def dispatchChange (n : Node) (v : String) : Option (Nat × String) :=
  match n with
  | Node.text _ => none
  | Node.elem _ attrs _ => (attrsChange attrs).map (fun cb => (cb, v))

-- ===========================================================================
-- 1. BUTTON (src/unnamed/part_001 lines 10-65)
-- ===========================================================================

inductive ButtonVariant where
  | primary | secondary | danger | success
  deriving DecidableEq, Repr

/-- The small/medium/large axis shared by Button, Card padding, Modal,
Badge and Spinner. -/
inductive Size where
  | small | medium | large
  deriving DecidableEq, Repr

structure ButtonProps where
  children : List Node := []
  variant : ButtonVariant := ButtonVariant.primary
  size : Size := Size.medium
  disabled : Bool := false
  onClick : Option Nat := none
  btnType : String := "button"
  className : String := ""
  loading : Bool := false

def buttonBaseClasses : String :=
  "font-medium rounded-lg transition-all duration-200 focus:outline-none focus:ring-2 focus:ring-offset-2"

def buttonVariantClasses : ButtonVariant → String
  | ButtonVariant.primary => "bg-blue-600 text-white hover:bg-blue-700 focus:ring-blue-500"
  | ButtonVariant.secondary => "bg-gray-600 text-white hover:bg-gray-700 focus:ring-gray-500"
  | ButtonVariant.danger => "bg-red-600 text-white hover:bg-red-700 focus:ring-red-500"
  | ButtonVariant.success => "bg-green-600 text-white hover:bg-green-700 focus:ring-green-500"

def buttonSizeClasses : Size → String
  | Size.small => "px-3 py-1.5 text-sm"
  | Size.medium => "px-4 py-2 text-base"
  | Size.large => "px-6 py-3 text-lg"

/-- Line 46: `disabled || loading ? 'opacity-50 cursor-not-allowed' : 'cursor-pointer'`. -/
def buttonDisabledClasses (p : ButtonProps) : String :=
  if p.disabled || p.loading then "opacity-50 cursor-not-allowed" else "cursor-pointer"

/-- The template literal of line 53. -/
def buttonClassName (p : ButtonProps) : String :=
  buttonBaseClasses ++ " " ++ buttonVariantClasses p.variant ++ " " ++
    buttonSizeClasses p.size ++ " " ++ buttonDisabledClasses p ++ " " ++ p.className

/-- The loading branch of lines 55-59: spinner div plus the text
`Loading...`. -/
def buttonLoadingBlock : Node :=
  Node.elem "div" [Attr.str "className" "flex items-center justify-center"]
    [Node.elem "div"
      [Attr.str "className" "animate-spin rounded-full h-4 w-4 border-b-2 border-white mr-2"] [],
     Node.text "Loading..."]

/-- The Button component, lines 21-65. -/
def Button (p : ButtonProps) : Node :=
  Node.elem "button"
    [Attr.str "type" p.btnType,
     Attr.bool "disabled" (p.disabled || p.loading),
     Attr.click p.onClick,
     Attr.str "className" (buttonClassName p)]
    (if p.loading then [buttonLoadingBlock] else p.children)

-- ===========================================================================
-- 2. INPUT (src/unnamed/part_001 lines 70-124)
-- ===========================================================================

structure InputProps where
  label : Option String := none
  placeholder : Option String := none
  value : String := ""
  onChange : Nat := 0
  inputType : String := "text"
  error : Option String := none
  disabled : Bool := false
  required : Bool := false
  className : String := ""
  id : Option String := none

/-- Line 95: `const inputId = id || ` concatenated with `input-` and a
random suffix.  JavaScript `||` falls through on `undefined` and on the
empty string; the random suffix produced by `Math.random()` is passed in
explicitly as `rand`. -/
def inputId (p : InputProps) (rand : String) : String :=
  match p.id with
  | some i => if i = "" then "input-" ++ rand else i
  | none => "input-" ++ rand

/-- The label block of lines 99-103, rendered iff `label` is truthy;
the required marker span of line 102 appears iff `required`. -/
def inputLabelBlock (p : InputProps) (rand : String) : List Node :=
  if truthy p.label then
    [Node.elem "label"
      [Attr.str "htmlFor" (inputId p rand),
       Attr.str "className" "block text-sm font-medium text-gray-700 mb-1"]
      ([Node.text (p.label.getD "")] ++
        (if p.required then
          [Node.elem "span" [Attr.str "className" "text-red-500 ml-1"] [Node.text "*"]]
        else []))]
  else []

/-- The class template of lines 113-117 (the template literal's layout
whitespace is collapsed to single separators). -/
def inputFieldClassName (p : InputProps) : String :=
  "w-full px-3 py-2 border rounded-md shadow-sm focus:outline-none focus:ring-2 focus:ring-blue-500 focus:border-blue-500" ++
    " " ++ (if truthy p.error then "border-red-300" else "border-gray-300") ++
    " " ++ (if p.disabled then "bg-gray-100 cursor-not-allowed" else "bg-white")

/-- The `input` element of lines 105-118. -/
def inputField (p : InputProps) (rand : String) : Node :=
  Node.elem "input"
    [Attr.str "id" (inputId p rand),
     Attr.str "type" p.inputType,
     Attr.str "value" p.value,
     Attr.change p.onChange,
     Attr.str "placeholder" (p.placeholder.getD ""),
     Attr.bool "disabled" p.disabled,
     Attr.bool "required" p.required,
     Attr.str "className" (inputFieldClassName p)]
    []

/-- The error paragraph of lines 119-121, rendered iff `error` is truthy. -/
def inputErrorBlock (p : InputProps) : List Node :=
  if truthy p.error then
    [Node.elem "p" [Attr.str "className" "mt-1 text-sm text-red-600"]
      [Node.text (p.error.getD "")]]
  else []

/-- The Input component, lines 83-124.  It is a function of its props and
of the sampled random suffix only: it holds no state slot for the text
value. -/
def Input (p : InputProps) (rand : String) : Node :=
  Node.elem "div" [Attr.str "className" ("mb-4 " ++ p.className)]
    (inputLabelBlock p rand ++ [inputField p rand] ++ inputErrorBlock p)

/-- The `id` attribute of the first child of a rendered Input (the field
element itself when no label block is rendered). -/
def inputFieldIdOf : Node → Option String
  | Node.elem _ _ (f :: _) => nodeStr "id" f
  | _ => none

-- ===========================================================================
-- 3. CARD (src/unnamed/part_001 lines 129-181)
-- ===========================================================================

structure CardProps where
  children : List Node := []
  title : Option String := none
  subtitle : Option String := none
  className : String := ""
  onClick : Option Nat := none
  hoverable : Bool := false
  padding : Size := Size.medium

def cardPaddingClasses : Size → String
  | Size.small => "p-3"
  | Size.medium => "p-6"
  | Size.large => "p-8"

/-- The header block of lines 168-177: rendered iff `title || subtitle`
is truthy, holding an `h3` for a truthy title and a `p` for a truthy
subtitle. -/
def cardHeader (p : CardProps) : List Node :=
  if truthy p.title || truthy p.subtitle then
    [Node.elem "div" [Attr.str "className" "mb-4"]
      ((if truthy p.title then
          [Node.elem "h3" [Attr.str "className" "text-lg font-semibold text-gray-900 mb-1"]
            [Node.text (p.title.getD "")]]
        else []) ++
       (if truthy p.subtitle then
          [Node.elem "p" [Attr.str "className" "text-sm text-gray-600"]
            [Node.text (p.subtitle.getD "")]]
        else []))]
  else []

/-- The Card component, lines 139-181. -/
def Card (p : CardProps) : Node :=
  Node.elem "div"
    [Attr.click p.onClick,
     Attr.str "className"
       ("bg-white rounded-lg shadow-md border border-gray-200" ++
         " " ++ cardPaddingClasses p.padding ++
         " " ++ (if p.hoverable then "hover:shadow-lg transition-shadow duration-200" else "") ++
         " " ++ (if p.onClick.isSome then "cursor-pointer" else "") ++
         " " ++ p.className)]
    (cardHeader p ++ p.children)

-- ===========================================================================
-- 4. MODAL (src/unnamed/part_001 lines 186-249)
-- ===========================================================================

structure ModalProps where
  isOpen : Bool := false
  onClose : Nat := 0
  title : Option String := none
  children : List Node := []
  size : Size := Size.medium
  showCloseButton : Bool := true

def modalSizeClasses : Size → String
  | Size.small => "max-w-md"
  | Size.medium => "max-w-lg"
  | Size.large => "max-w-2xl"

/-- The close button of lines 228-237. -/
def modalCloseButton (onClose : Nat) : Node :=
  Node.elem "button"
    [Attr.click (some onClose),
     Attr.str "className" "text-gray-400 hover:text-gray-600 transition-colors"]
    [Node.elem "svg"
      [Attr.str "className" "w-6 h-6", Attr.str "fill" "none",
       Attr.str "stroke" "currentColor", Attr.str "viewBox" "0 0 24 24"]
      [Node.elem "path"
        [Attr.str "strokeLinecap" "round", Attr.str "strokeLinejoin" "round",
         Attr.str "strokeWidth" "2", Attr.str "d" "M6 18L18 6M6 6l12 12"] []]]

/-- The header block of lines 223-239: rendered iff `title` is truthy or
`showCloseButton` is true; inside, the `h3` appears iff `title` is truthy
and the close button iff `showCloseButton`. -/
def modalHeader (p : ModalProps) : List Node :=
  if truthy p.title || p.showCloseButton then
    [Node.elem "div"
      [Attr.str "className" "flex items-center justify-between p-6 border-b border-gray-200"]
      ((if truthy p.title then
          [Node.elem "h3" [Attr.str "className" "text-lg font-semibold text-gray-900"]
            [Node.text (p.title.getD "")]]
        else []) ++
       (if p.showCloseButton then [modalCloseButton p.onClose] else []))]
  else []

/-- The Modal component, lines 195-249.  `none` is the `return null` of
line 203: a closed modal renders nothing at all. -/
def Modal (p : ModalProps) : Option Node :=
  if !p.isOpen then none
  else some
    (Node.elem "div" [Attr.str "className" "fixed inset-0 z-50 overflow-y-auto"]
      [Node.elem "div"
        [Attr.str "className" "fixed inset-0 bg-black bg-opacity-50 transition-opacity",
         Attr.click (some p.onClose)] [],
       Node.elem "div" [Attr.str "className" "flex min-h-full items-center justify-center p-4"]
        [Node.elem "div"
          [Attr.str "className"
            ("relative bg-white rounded-lg shadow-xl w-full " ++ modalSizeClasses p.size)]
          (modalHeader p ++ [Node.elem "div" [Attr.str "className" "p-6"] p.children])]])

-- ===========================================================================
-- 5. BADGE (src/unnamed/part_001 lines 254-288)
-- ===========================================================================

inductive BadgeVariant where
  | default | success | warning | danger | info
  deriving DecidableEq, Repr

structure BadgeProps where
  children : List Node := []
  variant : BadgeVariant := BadgeVariant.default
  size : Size := Size.medium
  className : String := ""

def badgeVariantClasses : BadgeVariant → String
  | BadgeVariant.default => "bg-gray-100 text-gray-800"
  | BadgeVariant.success => "bg-green-100 text-green-800"
  | BadgeVariant.warning => "bg-yellow-100 text-yellow-800"
  | BadgeVariant.danger => "bg-red-100 text-red-800"
  | BadgeVariant.info => "bg-blue-100 text-blue-800"

def badgeSizeClasses : Size → String
  | Size.small => "px-2 py-0.5 text-xs"
  | Size.medium => "px-2.5 py-0.5 text-sm"
  | Size.large => "px-3 py-1 text-base"

/-- The Badge component, lines 261-288. -/
def Badge (p : BadgeProps) : Node :=
  Node.elem "span"
    [Attr.str "className"
      ("inline-flex items-center font-medium rounded-full" ++
        " " ++ badgeVariantClasses p.variant ++ " " ++ badgeSizeClasses p.size ++
        " " ++ p.className)]
    p.children

-- ===========================================================================
-- 6. ALERT (src/unnamed/part_001 lines 293-353)
-- ===========================================================================

inductive AlertType where
  | info | success | warning | error
  deriving DecidableEq, Repr

structure AlertProps where
  children : List Node := []
  type : AlertType := AlertType.info
  title : Option String := none
  onClose : Option Nat := none
  className : String := ""

def alertTypeClasses : AlertType → String
  | AlertType.info => "bg-blue-50 border-blue-200 text-blue-800"
  | AlertType.success => "bg-green-50 border-green-200 text-green-800"
  | AlertType.warning => "bg-yellow-50 border-yellow-200 text-yellow-800"
  | AlertType.error => "bg-red-50 border-red-200 text-red-800"

def alertIconClasses : AlertType → String
  | AlertType.info => "text-blue-400"
  | AlertType.success => "text-green-400"
  | AlertType.warning => "text-yellow-400"
  | AlertType.error => "text-red-400"

/-- The icon wrapper of lines 325-329: the svg is colored by
`alertIconClasses type`, while its path `d` is the one literal of
line 327 for every type. -/
def alertIconWrap (t : AlertType) : Node :=
  Node.elem "div" [Attr.str "className" "flex-shrink-0"]
    [Node.elem "svg"
      [Attr.str "className" ("h-5 w-5 " ++ alertIconClasses t),
       Attr.str "viewBox" "0 0 20 20", Attr.str "fill" "currentColor"]
      [Node.elem "path"
        [Attr.str "fillRule" "evenodd",
         Attr.str "d" "M18 10a8 8 0 11-16 0 8 8 0 0116 0zm-7-4a1 1 0 11-2 0 1 1 0 012 0zM9 9a1 1 0 000 2v3a1 1 0 001 1h1a1 1 0 100-2v-3a1 1 0 00-1-1H9z",
         Attr.str "clipRule" "evenodd"] []]]

/-- The body of lines 330-337: optional truthy title plus children. -/
def alertBody (p : AlertProps) : Node :=
  Node.elem "div" [Attr.str "className" "ml-3 flex-1"]
    ((if truthy p.title then
        [Node.elem "h3" [Attr.str "className" "text-sm font-medium"] [Node.text (p.title.getD "")]]
      else []) ++
     [Node.elem "div" [Attr.str "className" "text-sm"] p.children])

/-- The close affordance of lines 338-349, rendered iff `onClose` is
provided. -/
def alertCloseBlock : Option Nat → List Node
  | some cb =>
      [Node.elem "div" [Attr.str "className" "ml-auto pl-3"]
        [Node.elem "button"
          [Attr.click (some cb),
           Attr.str "className" "inline-flex text-gray-400 hover:text-gray-600"]
          [Node.elem "svg"
            [Attr.str "className" "h-5 w-5", Attr.str "viewBox" "0 0 20 20",
             Attr.str "fill" "currentColor"]
            [Node.elem "path"
              [Attr.str "fillRule" "evenodd",
               Attr.str "d" "M4.293 4.293a1 1 0 011.414 0L10 8.586l4.293-4.293a1 1 0 111.414 1.414L11.414 10l4.293 4.293a1 1 0 01-1.414 1.414L10 11.414l-4.293 4.293a1 1 0 01-1.414-1.414L8.586 10 4.293 5.707a1 1 0 010-1.414z",
               Attr.str "clipRule" "evenodd"] []]]]]
  | none => []

/-- The Alert component, lines 301-353. -/
def Alert (p : AlertProps) : Node :=
  Node.elem "div"
    [Attr.str "className" ("border rounded-md p-4 " ++ alertTypeClasses p.type ++ " " ++ p.className)]
    [Node.elem "div" [Attr.str "className" "flex"]
      ([alertIconWrap p.type, alertBody p] ++ alertCloseBlock p.onClose)]

/-- The glyph of the icon inside a rendered Alert: the `d` attribute of
the path at the icon's fixed position (outer div → flex row → icon
wrapper → svg → path). -/
def alertIconGlyph : Node → Option String
  | Node.elem _ _ (Node.elem _ _ (Node.elem _ _ (Node.elem _ _ (Node.elem _ pa _ :: _) :: _) :: _) :: _) =>
      attrsStr "d" pa
  | _ => none

-- ===========================================================================
-- 7. SPINNER (src/unnamed/part_001 lines 358-384)
-- ===========================================================================

inductive SpinnerColor where
  | primary | white | gray
  deriving DecidableEq, Repr

structure SpinnerProps where
  size : Size := Size.medium
  color : SpinnerColor := SpinnerColor.primary
  className : String := ""

def spinnerSizeClasses : Size → String
  | Size.small => "h-4 w-4"
  | Size.medium => "h-6 w-6"
  | Size.large => "h-8 w-8"

def spinnerColorClasses : SpinnerColor → String
  | SpinnerColor.primary => "text-blue-600"
  | SpinnerColor.white => "text-white"
  | SpinnerColor.gray => "text-gray-600"

/-- The Spinner component, lines 364-384. -/
def Spinner (p : SpinnerProps) : Node :=
  Node.elem "div"
    [Attr.str "className"
      ("animate-spin rounded-full border-2 border-gray-300 border-t-current " ++
        spinnerSizeClasses p.size ++ " " ++ spinnerColorClasses p.color ++ " " ++ p.className)]
    []

-- ===========================================================================
-- 8. TOOLTIP (src/unnamed/part_001 lines 389-435)
-- ===========================================================================

inductive TooltipPosition where
  | top | bottom | left | right
  deriving DecidableEq, Repr

structure TooltipProps where
  children : List Node := []
  content : String := ""
  position : TooltipPosition := TooltipPosition.top
  className : String := ""

/-- A pointer event on the Tooltip wrapper. -/
inductive TooltipEvent where
  | enter | leave
  deriving DecidableEq, Repr

/-- Line 402: `useState(false)` — the initial value of `isVisible`. -/
def tooltipInit : Bool := false

/-- Lines 421-422: `onMouseEnter={() => setIsVisible(true)}` and
`onMouseLeave={() => setIsVisible(false)}`, as a step function on the
`isVisible` state. -/
def tooltipStep : TooltipEvent → Bool → Bool
  | TooltipEvent.enter, _ => true
  | TooltipEvent.leave, _ => false

def tooltipPositionClasses : TooltipPosition → String
  | TooltipPosition.top => "bottom-full left-1/2 transform -translate-x-1/2 mb-2"
  | TooltipPosition.bottom => "top-full left-1/2 transform -translate-x-1/2 mt-2"
  | TooltipPosition.left => "right-full top-1/2 transform -translate-y-1/2 mr-2"
  | TooltipPosition.right => "left-full top-1/2 transform -translate-y-1/2 ml-2"

def tooltipArrowClasses : TooltipPosition → String
  | TooltipPosition.top => "top-full left-1/2 transform -translate-x-1/2 border-t-gray-900"
  | TooltipPosition.bottom => "bottom-full left-1/2 transform -translate-x-1/2 border-b-gray-900"
  | TooltipPosition.left => "left-full top-1/2 transform -translate-y-1/2 border-l-gray-900"
  | TooltipPosition.right => "right-full top-1/2 transform -translate-y-1/2 border-r-gray-900"

/-- The inner bubble of lines 427-430, holding the `content` text and the
arrow graphic. -/
def tooltipBubbleInner (p : TooltipProps) : Node :=
  Node.elem "div"
    [Attr.str "className" "bg-gray-900 text-white text-sm rounded py-1 px-2 whitespace-nowrap"]
    [Node.text p.content,
     Node.elem "div"
      [Attr.str "className"
        ("absolute w-0 h-0 border-4 border-transparent " ++ tooltipArrowClasses p.position)] []]

/-- The positioned bubble of lines 425-432, rendered while visible. -/
def tooltipBubble (p : TooltipProps) : Node :=
  Node.elem "div"
    [Attr.str "className" ("absolute z-10 " ++ tooltipPositionClasses p.position)]
    [tooltipBubbleInner p]

/-- The Tooltip component, lines 396-435, as a function of its props and
of the current `isVisible` state snapshot. -/
def Tooltip (p : TooltipProps) (isVisible : Bool) : Node :=
  Node.elem "div"
    [Attr.str "className" ("relative inline-block " ++ p.className)]
    (p.children ++ (if isVisible then [tooltipBubble p] else []))

-- ===========================================================================
-- Claims
-- ===========================================================================

/-- C1: for every Button props configuration, the disabled value passed to
the rendered control equals `disabled || loading`, and when that
effective-disabled value is true a click event does not invoke the
`onClick` callback. -/
theorem button_effective_disabled (p : ButtonProps) :
    nodeBool "disabled" (Button p) = (p.disabled || p.loading) ∧
    (nodeBool "disabled" (Button p) = true → dispatchClick (Button p) = none) := by
  constructor
  · simp [Button, nodeBool, attrsBool]
  · intro h
    simp [Button, nodeBool, attrsBool] at h
    simp [Button, dispatchClick, attrsBool, h]

/-- Witness for C1 at a concrete disabled button with an installed
handler. -/
theorem button_effective_disabled_witness :
    nodeBool "disabled" (Button { disabled := true, onClick := some 7 }) = true ∧
    dispatchClick (Button { disabled := true, onClick := some 7 }) = none :=
  ⟨(button_effective_disabled { disabled := true, onClick := some 7 }).1,
   (button_effective_disabled { disabled := true, onClick := some 7 }).2 (by decide)⟩

/-- C6: whenever `loading` is true the Button renders, in place of its
children, the loading block — a spinner div plus the label `Loading...` —
and a click cannot invoke the handler. -/
theorem button_loading_contract (p : ButtonProps) (h : p.loading = true) :
    nodeChildren (Button p) = [buttonLoadingBlock] ∧
    nodeChildren buttonLoadingBlock =
      [Node.elem "div"
        [Attr.str "className" "animate-spin rounded-full h-4 w-4 border-b-2 border-white mr-2"] [],
       Node.text "Loading..."] ∧
    dispatchClick (Button p) = none := by
  refine ⟨?_, rfl, ?_⟩
  · simp [Button, nodeChildren, h]
  · simp [Button, dispatchClick, attrsBool, h]

/-- Witness for C6 at the claim's own input:
`Button {variant := danger, size := large, loading := true}`. -/
theorem button_loading_contract_witness :
    nodeChildren (Button { variant := ButtonVariant.danger, size := Size.large, loading := true }) =
      [buttonLoadingBlock] ∧
    nodeChildren buttonLoadingBlock =
      [Node.elem "div"
        [Attr.str "className" "animate-spin rounded-full h-4 w-4 border-b-2 border-white mr-2"] [],
       Node.text "Loading..."] ∧
    dispatchClick (Button { variant := ButtonVariant.danger, size := Size.large, loading := true }) = none :=
  button_loading_contract { variant := ButtonVariant.danger, size := Size.large, loading := true } rfl

/-- C2: the rendered field's `value` attribute equals exactly the
caller-supplied `value` prop (the component takes no state argument at
all — it is a function of props and the sampled id suffix only), the field
is part of Input's output, and a change event carrying `v` invokes
`onChange` with `v`. -/
theorem input_controlled (p : InputProps) (rand v : String) :
    nodeStr "value" (inputField p rand) = some p.value ∧
    inputField p rand ∈ nodeChildren (Input p rand) ∧
    dispatchChange (inputField p rand) v = some (p.onChange, v) := by
  refine ⟨?_, ?_, ?_⟩
  · simp [inputField, nodeStr, attrsStr]
  · simp [Input, nodeChildren]
  · simp [inputField, dispatchChange, attrsChange]

/-- C4: Tooltip's `isVisible` state starts HIDDEN; pointer-enter takes it
to VISIBLE, where the bubble holding `content` is rendered; pointer-leave
takes it back to HIDDEN, where no bubble is rendered. -/
theorem tooltip_visibility_cycle (p : TooltipProps) :
    tooltipInit = false ∧
    tooltipStep TooltipEvent.enter tooltipInit = true ∧
    tooltipStep TooltipEvent.leave (tooltipStep TooltipEvent.enter tooltipInit) = false ∧
    nodeChildren (Tooltip p true) = p.children ++ [tooltipBubble p] ∧
    Node.text p.content ∈ nodeChildren (tooltipBubbleInner p) ∧
    nodeChildren (Tooltip p false) = p.children := by
  refine ⟨rfl, rfl, rfl, ?_, ?_, ?_⟩
  · simp [Tooltip, nodeChildren]
  · simp [tooltipBubbleInner, nodeChildren]
  · simp [Tooltip, nodeChildren]

/-- C10: the Tooltip transitions are idempotent — the handlers write a
constant, so entering while visible stays visible and leaving while
hidden stays hidden. -/
theorem tooltip_step_idempotent :
    (∀ e s, tooltipStep e (tooltipStep e s) = tooltipStep e s) ∧
    tooltipStep TooltipEvent.enter true = true ∧
    tooltipStep TooltipEvent.leave false = false := by
  refine ⟨?_, rfl, rfl⟩
  intro e s
  cases e <;> rfl

/-- C3 counterexample: the claim reads header presence as «`title` is set
or `showCloseButton` is true», but line 223 tests `title ||
showCloseButton` with JavaScript truthiness, so a modal opened with
`title = ""` and `showCloseButton = false` has `title` set yet renders no
header block. -/
theorem modal_header_counterexample :
    ¬ (∀ p : ModalProps, p.isOpen = true →
        (modalHeader p ≠ [] ↔ (p.title.isSome ∨ p.showCloseButton = true))) := by
  intro hall
  have h := (hall ⟨true, 0, some "", [], Size.medium, false⟩ rfl).mpr (Or.inl rfl)
  exact h rfl

/-- C3 as amended: a closed modal renders nothing at all, and an open
modal's header block is present iff `title` is a non-empty string or
`showCloseButton` is true. -/
theorem modal_render_contract (p : ModalProps) :
    (p.isOpen = false → Modal p = none) ∧
    (p.isOpen = true →
      (modalHeader p ≠ [] ↔ (truthy p.title || p.showCloseButton) = true)) := by
  constructor
  · intro h
    simp [Modal, h]
  · intro _
    by_cases hc : (truthy p.title || p.showCloseButton) = true
    · simp [modalHeader, hc]
    · simp [modalHeader, hc]

/-- Witness for C3: a closed modal renders nothing, and an open modal
with a non-empty title and no close button has a header block. -/
theorem modal_render_contract_witness :
    Modal ⟨false, 0, none, [], Size.medium, true⟩ = none ∧
    modalHeader ⟨true, 0, some "T", [], Size.medium, false⟩ ≠ [] := by
  constructor
  · exact (modal_render_contract ⟨false, 0, none, [], Size.medium, true⟩).1 rfl
  · exact ((modal_render_contract ⟨true, 0, some "T", [], Size.medium, false⟩).2 rfl).mpr (by decide)

/-- C5 counterexample: line 168 tests `title || subtitle` with JavaScript
truthiness, so a Card given `title = ""` (provided, but empty) and no
subtitle renders no header block, against the claim's «provided»
predicate. -/
theorem card_alert_presence_counterexample :
    ¬ (∀ (p : CardProps) (q : AlertProps),
        (cardHeader p ≠ [] ↔ (p.title.isSome ∨ p.subtitle.isSome)) ∧
        (alertCloseBlock q.onClose ≠ [] ↔ q.onClose.isSome = true)) := by
  intro hall
  have h := (hall ⟨[], some "", none, "", none, false, Size.medium⟩ {}).1.mpr (Or.inl rfl)
  exact h rfl

/-- C5 as amended: a Card's header block is present iff `title` or
`subtitle` is provided non-empty, and an Alert's close button is present
iff `onClose` is provided — exactly. -/
theorem card_alert_presence (p : CardProps) (q : AlertProps) :
    (cardHeader p ≠ [] ↔ (truthy p.title || truthy p.subtitle) = true) ∧
    (alertCloseBlock q.onClose ≠ [] ↔ q.onClose.isSome = true) := by
  constructor
  · by_cases hc : (truthy p.title || truthy p.subtitle) = true
    · simp [cardHeader, hc]
    · simp [cardHeader, hc]
  · cases q.onClose <;> simp [alertCloseBlock]

/-- C7 counterexample: with `id` omitted, Input derives its field
identifier from the `Math.random()` sample of line 95 (passed here
explicitly), so two render calls with identical props can produce
different output. -/
theorem input_render_nondeterministic :
    Input {} "aaaaaaaaa" ≠ Input {} "bbbbbbbbb" := by
  intro h
  have hid := congrArg inputFieldIdOf h
  simp [Input, inputField, inputId, inputLabelBlock, inputErrorBlock, inputFieldIdOf,
    nodeStr, attrsStr, truthy] at hid

/-- C7 as amended: every component's render is a deterministic function
of its props/state snapshot except for Input's auto-generated identifier;
in particular, when a non-empty `id` prop is supplied, the random sample
is unused and Input renders identically across calls. -/
theorem input_deterministic_given_id (p : InputProps) (r₁ r₂ : String)
    (h : truthy p.id = true) :
    Input p r₁ = Input p r₂ := by
  have hid : inputId p r₁ = inputId p r₂ := by
    cases hp : p.id with
    | none => simp [truthy, hp] at h
    | some i =>
        simp [truthy, hp] at h
        simp [inputId, hp, h]
  simp [Input, inputField, inputLabelBlock, hid]

/-- Witness for C7's amended theorem at a concrete supplied id. -/
theorem input_deterministic_given_id_witness :
    Input { id := some "x" } "aa" = Input { id := some "x" } "bb" :=
  input_deterministic_given_id { id := some "x" } "aa" "bb" (by decide)

/-- C8 counterexample: the svg path literal of line 327 is the same for
every alert type — the `type` prop changes only the icon's color class —
so two Alerts of distinct types render identical icon glyphs. -/
theorem alert_icon_counterexample :
    ¬ (∀ (p q : AlertProps), p.type ≠ q.type →
        alertIconGlyph (Alert p) ≠ alertIconGlyph (Alert q)) := by
  intro hall
  exact hall { type := AlertType.info } { type := AlertType.error } (by decide) rfl

/-- C8 as amended: the Alert icon is colored by `type` — distinct types
select distinct icon color classes — but the icon glyph (the svg path) is
one and the same for all types. -/
theorem alert_icon_by_type (p q : AlertProps) :
    (alertIconClasses p.type = alertIconClasses q.type ↔ p.type = q.type) ∧
    alertIconGlyph (Alert p) = alertIconGlyph (Alert q) := by
  constructor
  · obtain ⟨_, t, _, _, _⟩ := p
    obtain ⟨_, u, _, _, _⟩ := q
    cases t <;> cases u <;> simp [alertIconClasses]
  · rfl

/-- C9 counterexample: the caller-supplied `className` prop is appended
verbatim to the class string (line 53), so a non-disabled Button given
`className = "opacity-50 cursor-not-allowed"` carries the disabled-styling
token while its disabled attribute is false. -/
theorem button_disabled_class_counterexample :
    ¬ (∀ p : ButtonProps,
        strContains (buttonClassName p) "opacity-50 cursor-not-allowed" = (p.disabled || p.loading) ∧
        ((p.disabled || p.loading) = false →
          strContains (buttonClassName p) "cursor-pointer" = true)) := by
  intro hall
  have h : strContains (buttonClassName { className := "opacity-50 cursor-not-allowed" })
      "opacity-50 cursor-not-allowed" = false :=
    (hall { className := "opacity-50 cursor-not-allowed" }).1
  exact absurd h (by decide)

/-- The disabled-styling tokens of the class string over the four fields
that feed it, with the default empty `className`: an exhaustive check over
variant × size × disabled × loading. -/
theorem button_class_core (v : ButtonVariant) (s : Size) (d l : Bool) :
    strContains (buttonClassName ⟨[], v, s, d, none, "button", "", l⟩)
        "opacity-50 cursor-not-allowed" = (d || l) ∧
    ((d || l) = false →
      strContains (buttonClassName ⟨[], v, s, d, none, "button", "", l⟩)
        "cursor-pointer" = true) := by
  cases v <;> cases s <;> cases d <;> cases l <;> decide

/-- C9 as amended: for every Button render call that leaves `className`
at its default (empty), the class string contains
`opacity-50 cursor-not-allowed` iff the rendered disabled attribute
(`disabled || loading`) is true, and otherwise contains `cursor-pointer`. -/
theorem button_disabled_class_iff (p : ButtonProps) (h : p.className = "") :
    strContains (buttonClassName p) "opacity-50 cursor-not-allowed" = (p.disabled || p.loading) ∧
    ((p.disabled || p.loading) = false →
      strContains (buttonClassName p) "cursor-pointer" = true) := by
  have hcn : buttonClassName p =
      buttonClassName ⟨[], p.variant, p.size, p.disabled, none, "button", "", p.loading⟩ := by
    simp [buttonClassName, buttonDisabledClasses, h]
  rw [hcn]
  exact button_class_core p.variant p.size p.disabled p.loading

/-- Witness for C9's amended theorem at a concrete loading button with an
empty `className`. -/
theorem button_disabled_class_iff_witness :
    strContains (buttonClassName { loading := true }) "opacity-50 cursor-not-allowed" = true :=
  (button_disabled_class_iff { loading := true } rfl).1

end UIKit
